import Mathlib

/-!
Verification development for the video-downloader HTTP service (src/main.py).

The service shells out to the external extraction tool (yt-dlp). Pure string
processing (filename sanitization, description truncation, quality lookup)
is embedded directly; each subprocess argument vector is embedded as the
literal list of strings built by the source; the request handlers are
embedded as functions from the outcome of the (capture-mode) metadata
subprocess — its return code, its stderr text, and the result of JSON-parsing
its stdout — to the HTTP reply the handler produces.  Python strings are
modelled by Lean `String` (character lists); the regex classes \w and \s are
modelled on their ASCII subsets, which is enough because every claim about
them only uses that word characters are never whitespace, that the underscore
is a word character and that the hyphen is not whitespace.
-/

namespace VideoDL

/-! ## Character classes (ASCII models of Python regex \w and \s) -/

/-- ASCII model of the Python regex class \w: letters, digits, underscore. -/
def isWordChar (c : Char) : Bool := c.isAlphanum || c = '_'

/-- ASCII model of the Python regex class \s: space, tab, newline, carriage
return, vertical tab, form feed. -/
def isSpaceChar (c : Char) : Bool :=
  c = ' ' || c = '\t' || c = '\n' || c = '\r' || c = '\x0b' || c = '\x0c'

/-- Python str.strip(): remove leading and trailing whitespace. -/
def pyStrip (s : String) : String :=
  ⟨((s.data.dropWhile isSpaceChar).reverse.dropWhile isSpaceChar).reverse⟩

/-! ## sanitize_filename (src/main.py lines 54-58)

`re.sub(r'[^\w\s-]', '_', filename)` replaces every character that is not a
word character, whitespace or hyphen by an underscore; then
`re.sub(r'\s+', '_', ...)` replaces every maximal run of whitespace by a
single underscore; then `[:200]` keeps the first 200 characters. -/

/-- One character of the first substitution: keep word characters, whitespace
and the hyphen, replace everything else by an underscore. -/
def replaceNonWord (c : Char) : Char :=
  if (isWordChar c || isSpaceChar c || c = '-') = true then c else '_'

/-- The second substitution, `re.sub(r'\s+', '_', ...)`: a left-to-right scan
in which the first character of a whitespace run emits one underscore and the
rest of the run is skipped.  `inRun` records whether the scan stands inside a
whitespace run. -/
def collapseGo (inRun : Bool) : List Char → List Char
  | [] => []
  | c :: rest =>
    if isSpaceChar c = true then
      if inRun = true then collapseGo true rest else '_' :: collapseGo true rest
    else c :: collapseGo false rest

/-- src/main.py `sanitize_filename`. -/
def sanitize_filename (s : String) : String :=
  ⟨(collapseGo false (s.data.map replaceNonWord)).take 200⟩

/-! ## Description truncation (src/main.py lines 174-177) -/

/-- The in-line truncation in `get_video_info`:
`if description and len(description) > 500: description = description[:500] + "..."`. -/
def truncate_description (d : String) : String :=
  if d ≠ "" ∧ 500 < d.length then (⟨d.data.take 500⟩ : String) ++ "..." else d

/-! ## Quality normalization and the format map (src/main.py lines 231-245) -/

/-- Lines 232-234: `quality = request.quality` followed by
`if quality not in ['best', 'worst', '720p', '480p', '360p']: quality = 'best'`.
The request field is `Optional[str]`, hence the `Option`. -/
def normalize_quality (q : Option String) : String :=
  match q with
  | some s => if s ∈ (["best", "worst", "720p", "480p", "360p"] : List String) then s else "best"
  | none => "best"

/-- The dict literal `format_map` of lines 237-243, as a lookup function. -/
def format_map (q : String) : Option String :=
  if q = "best" then some "best[ext=mp4]/best"
  else if q = "worst" then some "worst[ext=mp4]/worst"
  else if q = "720p" then some "best[height<=720][ext=mp4]/best[height<=720]"
  else if q = "480p" then some "best[height<=480][ext=mp4]/best[height<=480]"
  else if q = "360p" then some "best[height<=360][ext=mp4]/best[height<=360]"
  else none

/-- Line 245: `format_spec = format_map.get(quality, 'best[ext=mp4]/best')`,
applied to the normalized quality. -/
def format_spec (q : Option String) : String :=
  (format_map (normalize_quality q)).getD "best[ext=mp4]/best"

/-- The quality-tier table of spec section 6, written from the words of the
spec (including its fallback row) so that the code-derived `format_spec` can
be compared against it. -/
def specQualityTable (t : String) : String :=
  if t = "best" then "best[ext=mp4]/best"
  else if t = "worst" then "worst[ext=mp4]/worst"
  else if t = "720p" then "best[height<=720][ext=mp4]/best[height<=720]"
  else if t = "480p" then "best[height<=480][ext=mp4]/best[height<=480]"
  else if t = "360p" then "best[height<=360][ext=mp4]/best[height<=360]"
  else "best[ext=mp4]/best"

/-! ## Subprocess argument vectors

Each definition is the literal argv list built at the cited lines of
src/main.py. -/

/-- The metadata argv of `get_video_info` (lines 140-148). -/
def info_cmd (url : String) : List String :=
  ["yt-dlp", url, "--dump-json", "--no-playlist", "--no-warnings",
   "--no-call-home", "--no-check-certificate"]

/-- The metadata argv of `download_video` (lines 205-213). -/
def download_info_cmd (url : String) : List String :=
  ["yt-dlp", url, "--dump-json", "--no-playlist", "--no-warnings",
   "--no-call-home", "--no-check-certificate"]

/-- The streaming argv built by `stream_yt_dlp` (lines 78-88).  Note that the
parameter named `quality` is spliced into the f-string
`f'{quality}[ext=mp4]/best[ext=mp4]/best'`. -/
def stream_yt_dlp_cmd (url quality : String) : List String :=
  ["yt-dlp", url, "-f", quality ++ "[ext=mp4]/best[ext=mp4]/best", "-o", "-",
   "--no-playlist", "--no-warnings", "--no-call-home", "--no-check-certificate",
   "--prefer-free-formats"]

/-- The metadata argv of `download_format` (lines 271-277). -/
def download_format_info_cmd (url : String) : List String :=
  ["yt-dlp", url, "--dump-json", "--no-playlist", "--no-warnings"]

/-- The streaming argv of `download_format` (lines 290-297). -/
def download_format_stream_cmd (url fid : String) : List String :=
  ["yt-dlp", url, "-f", fid, "-o", "-", "--no-playlist", "--no-warnings"]

/-- The metadata argv of `get_formats` (lines 328-334). -/
def formats_cmd (url : String) : List String :=
  ["yt-dlp", url, "--dump-json", "--no-playlist", "--no-warnings"]

/-- The value following the first "-f" element of an argv, if any. -/
def fArgAfter : List String → Option String
  | [] => none
  | a :: rest => if a = "-f" then rest.head? else fArgAfter rest

/-! ## Python truthiness helpers for the `x or y` field fallbacks -/

/-- Python `a or b` on optional strings: a missing value and the empty string
are falsy. -/
def pyOr (a b : Option String) : Option String :=
  match a with
  | some s => if s = "" then b else some s
  | none => b

/-- Python `a or b` where `b` is a (truthy) string literal default. -/
def pyOrD (a : Option String) (b : String) : String :=
  match a with
  | some s => if s = "" then b else s
  | none => b

/-- Python `a or b` on optional numbers: a missing value and 0 are falsy. -/
def pyOrInt (a b : Option Int) : Option Int :=
  match a with
  | some n => if n = 0 then b else some n
  | none => b

/-! ## Data model -/

/-- Outcome of one capture-mode subprocess: its exit status and decoded
stderr.  The captured stdout is represented separately, by the result of
JSON-parsing it. -/
structure ProcResult where
  returncode : Int
  stderr : String
deriving DecidableEq

/-- One entry of a thumbnails list in the metadata document. -/
structure Thumbnail where
  url : Option String := none
deriving DecidableEq

/-- One entry of the formats list in the metadata document; exactly the
fields the source reads.  Numeric fields are modelled as integers (they are
only copied, never computed with). -/
structure Fmt where
  format_id : Option String := none
  ext : Option String := none
  format_note : Option String := none
  quality : Option String := none
  filesize : Option Int := none
  filesize_approx : Option Int := none
  vcodec : Option String := none
  acodec : Option String := none
  height : Option Int := none
  width : Option Int := none
  fps : Option Int := none
deriving DecidableEq

/-- One entry of the `/formats` response list (the dict built at lines
348-358). -/
structure FormatDescriptor where
  format_id : Option String
  ext : Option String
  quality : String
  filesize : Option Int
  vcodec : Option String
  acodec : Option String
  height : Option Int
  width : Option Int
  fps : Option Int
deriving DecidableEq

/-- The subset of the parsed metadata JSON document that the source reads.
A `none` models a missing key (`dict.get` misses). -/
structure VideoInfo where
  title : Option String := none
  ext : Option String := none
  duration : Option Int := none
  uploader : Option String := none
  channel : Option String := none
  creator : Option String := none
  upload_date : Option String := none
  view_count : Option Int := none
  like_count : Option Int := none
  comment_count : Option Int := none
  extractor_key : Option String := none
  thumbnails : Option (List Thumbnail) := none
  thumbnail : Option String := none
  formats : Option (List Fmt) := none
  filesize_approx : Option Int := none
  filesize : Option Int := none
  description : Option String := none
deriving DecidableEq

/-- The `InfoResponse` pydantic model (lines 34-46), with the fields the
handler fills. -/
structure InfoResponse where
  title : String
  duration : Option Int
  uploader : Option String
  upload_date : Option String
  view_count : Option Int
  like_count : Option Int
  comment_count : Option Int
  platform : String
  thumbnail : Option String
  formats_available : Nat
  filesize_approx : Option Int
  description : String
deriving DecidableEq

/-- The exceptions a handler body can raise: `HTTPException(status, detail)`
and `json.JSONDecodeError` (carrying its message, i.e. its `str()`). -/
inductive PyExc where
  | http (status : Nat) (detail : String)
  | jsonDecode (msg : String)
deriving DecidableEq

/-- Python `str(e)`.  For a fastapi/starlette `HTTPException` this is
`f"{status_code}: {detail}"`; for a `JSONDecodeError` it is its message. -/
def strOfExc : PyExc → String
  | .http s d => toString s ++ ": " ++ d
  | .jsonDecode m => m

/-- A `StreamingResponse`: the argv of the streaming subprocess it will
consume, and the filename announced in its Content-Disposition header. -/
structure StreamSpec where
  cmd : List String
  filename : String
deriving DecidableEq

/-- The reply a handler hands to the framework. -/
inductive HttpReply where
  | ok (body : InfoResponse)
  | stream (s : StreamSpec)
  | err (status : Nat) (detail : String)
deriving DecidableEq

/-- HTTP status of a reply. -/
def statusOf : HttpReply → Nat
  | .ok _ => 200
  | .stream _ => 200
  | .err s _ => s

/-- The streaming argv of a reply, when the reply streams. -/
def streamCmdOf : HttpReply → Option (List String)
  | .stream s => some s.cmd
  | _ => none

/-- The value of the "-f" argument of the streaming subprocess of a reply. -/
def fArgOf (r : HttpReply) : Option String :=
  match streamCmdOf r with
  | some c => fArgAfter c
  | none => none

/-! ## Request handlers

Each handler is embedded as a function from the outcome of its capture-mode
metadata subprocess — `meta : ProcResult` plus `parsed`, the result of
`json.loads` on the captured stdout (`.error m` carries the str() of the
`JSONDecodeError`) — to the reply it produces.  The try/except structure of
the source is mirrored by first computing the body as an
`Except PyExc _` value and then applying the handler clauses in source
order. -/

/-- The `InfoResponse(...)` construction of lines 166-192, including the
thumbnail fallback chain and the description truncation. -/
def mkInfoResponse (info : VideoInfo) : InfoResponse :=
  let thumbnail : Option String :=
    match info.thumbnails with
    | some (t :: ts) => (ts.getLastD t).url
    | _ =>
      match info.thumbnail with
      | some u => if u = "" then none else some u
      | none => none
  { title := info.title.getD "Unknown Title"
    duration := info.duration
    uploader := pyOr (pyOr info.uploader info.channel) info.creator
    upload_date := info.upload_date
    view_count := info.view_count
    like_count := info.like_count
    comment_count := info.comment_count
    platform := info.extractor_key.getD "Unknown"
    thumbnail := thumbnail
    formats_available := (info.formats.getD []).length
    filesize_approx := pyOrInt info.filesize_approx info.filesize
    description := truncate_description (info.description.getD "") }

/-- `POST /info` (`get_video_info`, lines 135-197).  The except clauses, in
source order, are `except json.JSONDecodeError` and `except Exception`; the
`HTTPException(400)` raised at line 160 is an `Exception`, so it is caught by
the second clause and re-raised as a 500. -/
def get_video_info (meta : ProcResult) (parsed : Except String VideoInfo) : HttpReply :=
  let body : Except PyExc InfoResponse :=
    if meta.returncode ≠ 0 then
      .error (.http 400 ("yt-dlp error: " ++ pyStrip meta.stderr))
    else
      match parsed with
      | .error m => .error (.jsonDecode m)
      | .ok info => .ok (mkInfoResponse info)
  match body with
  | .ok r => .ok r
  | .error (.jsonDecode _) => .err 500 "Failed to parse video information"
  | .error e => .err 500 (strOfExc e)

/-- `POST /download` (`download_video`, lines 200-264).  Its except clauses
are `except HTTPException: raise` and `except Exception`, so the 400 of line
225 propagates.  On success it returns a `StreamingResponse` over
`stream_yt_dlp(request.videoUrl, format_spec)`, whose argv is
`stream_yt_dlp_cmd url (format_spec q)`. -/
def download_video (url : String) (q : Option String) (meta : ProcResult)
    (parsed : Except String VideoInfo) : HttpReply :=
  let body : Except PyExc HttpReply :=
    if meta.returncode ≠ 0 then
      .error (.http 400 ("yt-dlp error: " ++ pyStrip meta.stderr))
    else
      match parsed with
      | .error m => .error (.jsonDecode m)
      | .ok info =>
        let title := sanitize_filename (info.title.getD "video")
        let _ext := info.ext.getD "mp4"
        .ok (.stream ⟨stream_yt_dlp_cmd url (format_spec q), title ++ ".mp4"⟩)
  match body with
  | .ok r => r
  | .error (.http s d) => .err s d
  | .error e => .err 500 (strOfExc e)

/-- `POST /download/format` (`download_format`, lines 267-321).  The source
discards stderr (`stdout_info, _ = ...`), never inspects `returncode`, and
its only except clause is `except Exception`, mapping any exception to a 500
with `str(e)`. -/
def download_format (url fid : String) (_meta : ProcResult)
    (parsed : Except String VideoInfo) : HttpReply :=
  let body : Except PyExc HttpReply :=
    match parsed with
    | .error m => .error (.jsonDecode m)
    | .ok info =>
      let title := sanitize_filename (info.title.getD "video")
      .ok (.stream ⟨download_format_stream_cmd url fid, title ++ ".mp4"⟩)
  match body with
  | .ok r => r
  | .error e => .err 500 (strOfExc e)

/-- The dict built for one kept format entry (lines 348-358). -/
def describeFormat (f : Fmt) : FormatDescriptor :=
  { format_id := f.format_id
    ext := f.ext
    quality := pyOrD (pyOr f.format_note f.quality) "Unknown"
    filesize := pyOrInt f.filesize f.filesize_approx
    vcodec := f.vcodec
    acodec := f.acodec
    height := f.height
    width := f.width
    fps := f.fps }

/-- The accumulation loop of `get_formats` (lines 345-358): an entry is kept
iff `f.get('vcodec') != 'none' or f.get('acodec') != 'none'`. -/
def get_formats_list : List Fmt → List FormatDescriptor
  | [] => []
  | f :: rest =>
    if f.vcodec ≠ some "none" ∨ f.acodec ≠ some "none" then
      describeFormat f :: get_formats_list rest
    else get_formats_list rest

/-! ## The streaming generator and client disconnect (lines 90-102)

`stream_yt_dlp` spawns the child, then loops: read up to 8192 bytes; an empty
read breaks the loop; otherwise the chunk is yielded; after the loop the
child is awaited.  The body is embedded as the linear sequence of its actions
and yield points.  An async generator that is abandoned by its consumer after
delivering k chunks is suspended at its k-th yield; closing it raises
GeneratorExit there, and since the source has no try/finally, nothing after
that yield runs. -/

/-- Observable process-lifecycle actions of the relay.  `termProc` (a kill or
terminate of the child) is in the vocabulary although the source never
performs it — that absence is what claim C2 is about. -/
inductive PEvent where
  | spawn
  | readChunk (c : List Nat)
  | waitProc
  | termProc
deriving DecidableEq

/-- One step of the generator body: an action, or a yield delivering a
chunk. -/
inductive GenStep where
  | act (e : PEvent)
  | yieldChunk (c : List Nat)
deriving DecidableEq

/-- The read/yield loop of lines 96-100, followed by `await process.wait()`
(line 102), given the successive chunks the pipe returns (the empty chunk
signals end of stream). -/
def genSteps : List (List Nat) → List GenStep
  | [] => [.act (.readChunk []), .act .waitProc]
  | c :: rest =>
    if c = [] then [.act (.readChunk c), .act .waitProc]
    else .act (.readChunk c) :: .yieldChunk c :: genSteps rest

/-- The whole generator body of `stream_yt_dlp`: spawn (line 90), then the
loop and the wait. -/
def stream_yt_dlp_gen (chunks : List (List Nat)) : List GenStep :=
  .act .spawn :: genSteps chunks

/-- The actions actually executed when the consumer closes the generator
after receiving `k` chunks: every action up to the k-th yield runs; the
generator is then suspended at that yield and closing it runs nothing
further (there is no try/finally in the source). -/
def closeAfterYields : Nat → List GenStep → List PEvent
  | _, [] => []
  | 0, _ :: _ => []
  | k+1, .act e :: rest => e :: closeAfterYields (k+1) rest
  | 1, .yieldChunk _ :: _ => []
  | k+2, .yieldChunk _ :: rest => closeAfterYields (k+1) rest

/-- The actions executed when the consumer drains the stream to the end. -/
def runToEnd : List GenStep → List PEvent
  | [] => []
  | .act e :: rest => e :: runToEnd rest
  | .yieldChunk _ :: rest => runToEnd rest

/-- A concrete metadata document used as a witness input. -/
def sampleInfo : VideoInfo :=
  { title := some "My Clip!", ext := some "mp4", extractor_key := some "Example" }

/-- A concrete format entry used as a witness input. -/
def sampleFmt : Fmt :=
  { format_id := some "22", ext := some "mp4", format_note := some "720p",
    vcodec := some "avc1", acodec := some "mp4a", height := some 720 }

/-! ## Helper lemmas about the character classes and sanitize_filename -/

theorem space_cases (c : Char) (h : isSpaceChar c = true) :
    c = ' ' ∨ c = '\t' ∨ c = '\n' ∨ c = '\r' ∨ c = '\x0b' ∨ c = '\x0c' := by
  simp only [isSpaceChar, Bool.or_eq_true, decide_eq_true_eq] at h
  tauto

theorem word_not_space (c : Char) (hw : isWordChar c = true) : isSpaceChar c = false := by
  by_contra h
  have hs : isSpaceChar c = true := by
    revert h; cases isSpaceChar c <;> simp
  rcases space_cases c hs with rfl | rfl | rfl | rfl | rfl | rfl <;>
    exact absurd hw (by decide)

theorem mem_map_replace (l : List Char) (c : Char) (h : c ∈ l.map replaceNonWord) :
    isWordChar c = true ∨ isSpaceChar c = true ∨ c = '-' := by
  rcases List.mem_map.mp h with ⟨a, _, rfl⟩
  unfold replaceNonWord
  split
  · next hcond =>
    simp only [Bool.or_eq_true, decide_eq_true_eq] at hcond
    tauto
  · next => exact Or.inl (by decide)

theorem collapse_chars : ∀ (l : List Char) (b : Bool),
    (∀ c ∈ l, isWordChar c = true ∨ isSpaceChar c = true ∨ c = '-') →
    ∀ c ∈ collapseGo b l, isWordChar c = true ∨ c = '-' := by
  intro l
  induction l with
  | nil => intro b _ c hc; simp [collapseGo] at hc
  | cons a rest ih =>
    intro b hall c hc
    have hta := hall a (List.mem_cons_self a rest)
    have htail : ∀ x ∈ rest, isWordChar x = true ∨ isSpaceChar x = true ∨ x = '-' :=
      fun x hx => hall x (List.mem_cons_of_mem a hx)
    by_cases hs : isSpaceChar a = true
    · rw [show collapseGo b (a :: rest) =
          (if b = true then collapseGo true rest else '_' :: collapseGo true rest) by
            simp [collapseGo, hs]] at hc
      cases b with
      | true =>
        rw [if_pos rfl] at hc
        exact ih true htail c hc
      | false =>
        rw [if_neg (by decide)] at hc
        rcases List.mem_cons.mp hc with rfl | hc2
        · exact Or.inl (by decide)
        · exact ih true htail c hc2
    · rw [show collapseGo b (a :: rest) = a :: collapseGo false rest by
            simp [collapseGo, hs]] at hc
      rcases List.mem_cons.mp hc with rfl | hc2
      · rcases hta with hw | hsp | hd
        · exact Or.inl hw
        · exact absurd hsp hs
        · exact Or.inr hd
      · exact ih false htail c hc2

theorem collapse_nospace_id : ∀ (l : List Char) (b : Bool),
    (∀ c ∈ l, isSpaceChar c = false) → collapseGo b l = l := by
  intro l
  induction l with
  | nil => intro b _; rfl
  | cons a rest ih =>
    intro b hall
    have hs : isSpaceChar a = false := hall a (List.mem_cons_self a rest)
    have htail : ∀ x ∈ rest, isSpaceChar x = false :=
      fun x hx => hall x (List.mem_cons_of_mem a hx)
    simp only [collapseGo]
    rw [if_neg (by simp [hs])]
    rw [ih false htail]

theorem map_replace_id : ∀ (l : List Char),
    (∀ c ∈ l, isWordChar c = true ∨ c = '-') → l.map replaceNonWord = l := by
  intro l
  induction l with
  | nil => intro _; rfl
  | cons a rest ih =>
    intro h
    have ha := h a (List.mem_cons_self a rest)
    have htail : ∀ x ∈ rest, isWordChar x = true ∨ x = '-' :=
      fun x hx => h x (List.mem_cons_of_mem a hx)
    have hra : replaceNonWord a = a := by
      unfold replaceNonWord
      split
      · rfl
      · next hcond =>
        exfalso
        apply hcond
        simp only [Bool.or_eq_true, decide_eq_true_eq]
        tauto
    simp only [List.map_cons, hra, ih htail]

theorem mem_of_mem_take {α : Type} {c : α} : ∀ {l : List α} {n : Nat}, c ∈ l.take n → c ∈ l := by
  intro l
  induction l with
  | nil => intro n h; simp [List.take] at h
  | cons a rest ih =>
    intro n h
    cases n with
    | zero => simp [List.take] at h
    | succ m =>
      rw [List.take_succ_cons] at h
      rcases List.mem_cons.mp h with rfl | h2
      · exact List.mem_cons_self _ _
      · exact List.mem_cons_of_mem a (ih h2)

/-! ## Claim theorems -/

/-- Claim C4 (confirmed): `sanitize_filename` is idempotent, its output never
exceeds 200 characters, and every output character is a word character (which
includes the underscore) or a hyphen. -/
theorem c4_sanitize_props (s : String) :
    sanitize_filename (sanitize_filename s) = sanitize_filename s ∧
    (sanitize_filename s).length ≤ 200 ∧
    ∀ c ∈ (sanitize_filename s).data, isWordChar c = true ∨ c = '-' := by
  have hchars : ∀ c ∈ (sanitize_filename s).data, isWordChar c = true ∨ c = '-' := by
    intro c hc
    have hc2 : c ∈ collapseGo false (s.data.map replaceNonWord) := mem_of_mem_take hc
    exact collapse_chars _ false (fun d hd => mem_map_replace _ d hd) c hc2
  have hlen : (sanitize_filename s).length ≤ 200 := by
    show ((collapseGo false (s.data.map replaceNonWord)).take 200).length ≤ 200
    rw [List.length_take]
    exact min_le_left _ _
  refine ⟨?_, hlen, hchars⟩
  have hmap : (sanitize_filename s).data.map replaceNonWord = (sanitize_filename s).data :=
    map_replace_id _ hchars
  have hnospace : ∀ c ∈ (sanitize_filename s).data, isSpaceChar c = false := by
    intro c hc
    rcases hchars c hc with hw | rfl
    · exact word_not_space c hw
    · decide
  have hcol : collapseGo false (sanitize_filename s).data = (sanitize_filename s).data :=
    collapse_nospace_id _ false hnospace
  have htake : ((sanitize_filename s).data).take 200 = (sanitize_filename s).data :=
    List.take_of_length_le hlen
  show (⟨(collapseGo false ((sanitize_filename s).data.map replaceNonWord)).take 200⟩ : String)
      = sanitize_filename s
  rw [hmap, hcol, htake]

/-- Witness for C4: the theorem applied at the concrete title "My Clip!",
its membership hypothesis discharged at the character M. -/
theorem c4_witness :
    sanitize_filename (sanitize_filename "My Clip!") = sanitize_filename "My Clip!" ∧
    (isWordChar 'M' = true ∨ 'M' = '-') :=
  ⟨(c4_sanitize_props "My Clip!").1, (c4_sanitize_props "My Clip!").2.2 'M' (by decide)⟩

/-- Normalization followed by the map lookup agrees with the spec table on
every string (shared by the C1 and C3 results). -/
theorem format_spec_eq_table (q : String) : format_spec (some q) = specQualityTable q := by
  by_cases h1 : q = "best"
  · subst h1; decide
  by_cases h2 : q = "worst"
  · subst h2; decide
  by_cases h3 : q = "720p"
  · subst h3; decide
  by_cases h4 : q = "480p"
  · subst h4; decide
  by_cases h5 : q = "360p"
  · subst h5; decide
  have hmem : q ∉ (["best", "worst", "720p", "480p", "360p"] : List String) := by
    simp [h1, h2, h3, h4, h5]
  show (format_map (if q ∈ (["best", "worst", "720p", "480p", "360p"] : List String)
      then q else "best")).getD "best[ext=mp4]/best" = specQualityTable q
  rw [if_neg hmem]
  unfold specQualityTable
  rw [if_neg h1, if_neg h2, if_neg h3, if_neg h4, if_neg h5]
  decide

/-- Claim C3 (confirmed): the quality-normalization-and-lookup step of
/download is total on strings — each of the five supported tiers maps to
exactly its table expression, and every unrecognized string maps to the
expression of the "best" row. -/
theorem c3_quality_lookup_total :
    (∀ q : String, q ∉ (["best", "worst", "720p", "480p", "360p"] : List String) →
      format_spec (some q) = "best[ext=mp4]/best") ∧
    format_spec (some "best") = "best[ext=mp4]/best" ∧
    format_spec (some "worst") = "worst[ext=mp4]/worst" ∧
    format_spec (some "720p") = "best[height<=720][ext=mp4]/best[height<=720]" ∧
    format_spec (some "480p") = "best[height<=480][ext=mp4]/best[height<=480]" ∧
    format_spec (some "360p") = "best[height<=360][ext=mp4]/best[height<=360]" := by
  refine ⟨?_, by decide, by decide, by decide, by decide, by decide⟩
  intro q hq
  show (format_map (if q ∈ (["best", "worst", "720p", "480p", "360p"] : List String)
      then q else "best")).getD "best[ext=mp4]/best" = "best[ext=mp4]/best"
  rw [if_neg hq]
  decide

/-- Witness for C3: the fallback hypothesis discharged at the unrecognized
string "4k", together with a supported tier. -/
theorem c3_witness :
    format_spec (some "4k") = "best[ext=mp4]/best" ∧
    format_spec (some "720p") = "best[height<=720][ext=mp4]/best[height<=720]" :=
  ⟨c3_quality_lookup_total.1 "4k" (by decide), c3_quality_lookup_total.2.2.2.1⟩

/-- Claim C10 (confirmed): the /info description truncation leaves strings of
length at most 500 unchanged and maps longer strings to exactly their first
500 characters followed by "...". -/
theorem c10_description_truncation (d : String) :
    (d.length ≤ 500 → truncate_description d = d) ∧
    (500 < d.length →
      truncate_description d = (⟨d.data.take 500⟩ : String) ++ "...") := by
  constructor
  · intro h
    unfold truncate_description
    rw [if_neg]
    intro hc
    exact absurd hc.2 (Nat.not_lt.mpr h)
  · intro h
    have hne : d ≠ "" := by
      intro he
      rw [he] at h
      exact absurd h (by decide)
    unfold truncate_description
    rw [if_pos ⟨hne, h⟩]

set_option maxRecDepth 8000 in
/-- Witness for C10: the theorem applied at a short string and at a string of
501 characters. -/
theorem c10_witness :
    truncate_description "ab" = "ab" ∧
    truncate_description ⟨List.replicate 501 'a'⟩ =
      (⟨(⟨List.replicate 501 'a'⟩ : String).data.take 500⟩ : String) ++ "..." :=
  ⟨(c10_description_truncation "ab").1 (by decide),
   (c10_description_truncation ⟨List.replicate 501 'a'⟩).2 (by decide)⟩

/-- Claim C5 (confirmed): when the metadata invocation of /download exits
non-zero, the handler replies 400 with a detail carrying the stripped stderr
text of that subprocess, and no streaming subprocess argv is produced —
`download_video` re-raises the `HTTPException` through its
`except HTTPException: raise` clause before `stream_yt_dlp` is reached. -/
theorem c5_download_meta_failure (url : String) (q : Option String) (meta : ProcResult)
    (parsed : Except String VideoInfo) (h : meta.returncode ≠ 0) :
    download_video url q meta parsed = .err 400 ("yt-dlp error: " ++ pyStrip meta.stderr) ∧
    streamCmdOf (download_video url q meta parsed) = none := by
  have hb : download_video url q meta parsed =
      .err 400 ("yt-dlp error: " ++ pyStrip meta.stderr) := by
    unfold download_video
    rw [if_pos h]
  exact ⟨hb, by rw [hb]; rfl⟩

/-- Witness for C5: the theorem applied at a failing metadata invocation with
the diagnostic of the spec scenario. -/
theorem c5_witness :
    download_video "https://example.com/v/abc" (some "best") ⟨1, "ERROR: Unsupported URL"⟩
        (.error "") =
      .err 400 ("yt-dlp error: " ++ pyStrip "ERROR: Unsupported URL") ∧
    streamCmdOf (download_video "https://example.com/v/abc" (some "best")
        ⟨1, "ERROR: Unsupported URL"⟩ (.error "")) = none :=
  c5_download_meta_failure _ _ _ _ (by decide)

/-- Counterexample to claim C1: for a /download request with quality "720p"
the -f argument of the streaming argv is NOT the table expression
`best[height<=720][ext=mp4]/best[height<=720]` — `stream_yt_dlp` re-wraps the
expression it receives, producing
`best[height<=720][ext=mp4]/best[height<=720][ext=mp4]/best[ext=mp4]/best`. -/
theorem c1_counterexample :
    fArgOf (download_video "https://example.com/v/abc" (some "720p") ⟨0, ""⟩ (.ok sampleInfo))
      ≠ some "best[height<=720][ext=mp4]/best[height<=720]" := by decide

/-- Claim C1 as amended (the -f argument equals the table expression for the
normalized tier with "[ext=mp4]/best[ext=mp4]/best" appended by
`stream_yt_dlp`). -/
theorem c1_download_fArg (url q : String) (meta : ProcResult) (info : VideoInfo)
    (hu : url ≠ "-f") (h0 : meta.returncode = 0) :
    fArgOf (download_video url (some q) meta (.ok info)) =
      some (specQualityTable q ++ "[ext=mp4]/best[ext=mp4]/best") := by
  have hdl : download_video url (some q) meta (.ok info) =
      .stream ⟨stream_yt_dlp_cmd url (format_spec (some q)),
        sanitize_filename (info.title.getD "video") ++ ".mp4"⟩ := by
    unfold download_video
    rw [if_neg (fun hn => hn h0)]
  rw [hdl]
  show fArgAfter (stream_yt_dlp_cmd url (format_spec (some q))) = _
  unfold stream_yt_dlp_cmd
  rw [fArgAfter, if_neg (by decide)]
  rw [fArgAfter, if_neg hu]
  rw [fArgAfter, if_pos rfl]
  rw [format_spec_eq_table]
  rfl

/-- Witness for C1 (amended): applied at the 720p scenario of the spec. -/
theorem c1_witness :
    fArgOf (download_video "https://example.com/v/abc" (some "720p") ⟨0, ""⟩ (.ok sampleInfo)) =
      some (specQualityTable "720p" ++ "[ext=mp4]/best[ext=mp4]/best") :=
  c1_download_fArg "https://example.com/v/abc" "720p" ⟨0, ""⟩ sampleInfo (by decide) rfl

/-- Counterexample to claim C6: the argv of the /formats metadata invocation
does not contain --no-check-certificate. -/
theorem c6_counterexample :
    "--no-check-certificate" ∉ formats_cmd "https://example.com/v/abc" := by decide

/-- Claim C6 as amended: every invocation contains --no-playlist and
--no-warnings; the /info and /download invocations (capture and streaming)
also contain --no-check-certificate, but both /download/format invocations
and the /formats invocation omit it. -/
theorem c6_flags (url q fid : String)
    (hu : url ≠ "--no-check-certificate") (hf : fid ≠ "--no-check-certificate") :
    ("--no-playlist" ∈ info_cmd url ∧ "--no-warnings" ∈ info_cmd url ∧
      "--no-check-certificate" ∈ info_cmd url) ∧
    ("--no-playlist" ∈ download_info_cmd url ∧ "--no-warnings" ∈ download_info_cmd url ∧
      "--no-check-certificate" ∈ download_info_cmd url) ∧
    ("--no-playlist" ∈ stream_yt_dlp_cmd url q ∧ "--no-warnings" ∈ stream_yt_dlp_cmd url q ∧
      "--no-check-certificate" ∈ stream_yt_dlp_cmd url q) ∧
    ("--no-playlist" ∈ download_format_info_cmd url ∧
      "--no-warnings" ∈ download_format_info_cmd url ∧
      "--no-check-certificate" ∉ download_format_info_cmd url) ∧
    ("--no-playlist" ∈ download_format_stream_cmd url fid ∧
      "--no-warnings" ∈ download_format_stream_cmd url fid ∧
      "--no-check-certificate" ∉ download_format_stream_cmd url fid) ∧
    ("--no-playlist" ∈ formats_cmd url ∧ "--no-warnings" ∈ formats_cmd url ∧
      "--no-check-certificate" ∉ formats_cmd url) := by
  refine ⟨⟨?_, ?_, ?_⟩, ⟨?_, ?_, ?_⟩, ⟨?_, ?_, ?_⟩, ⟨?_, ?_, ?_⟩, ⟨?_, ?_, ?_⟩, ⟨?_, ?_, ?_⟩⟩ <;>
    · simp only [info_cmd, download_info_cmd, stream_yt_dlp_cmd, download_format_info_cmd,
        download_format_stream_cmd, formats_cmd, List.mem_cons, List.not_mem_nil, or_false]
      tauto

/-- Witness for C6 (amended): applied at concrete url, quality and
format id. -/
theorem c6_witness :
    ("--no-playlist" ∈ info_cmd "https://example.com/v/abc" ∧
      "--no-warnings" ∈ info_cmd "https://example.com/v/abc" ∧
      "--no-check-certificate" ∈ info_cmd "https://example.com/v/abc") ∧
    ("--no-playlist" ∈ download_info_cmd "https://example.com/v/abc" ∧
      "--no-warnings" ∈ download_info_cmd "https://example.com/v/abc" ∧
      "--no-check-certificate" ∈ download_info_cmd "https://example.com/v/abc") ∧
    ("--no-playlist" ∈ stream_yt_dlp_cmd "https://example.com/v/abc" "best" ∧
      "--no-warnings" ∈ stream_yt_dlp_cmd "https://example.com/v/abc" "best" ∧
      "--no-check-certificate" ∈ stream_yt_dlp_cmd "https://example.com/v/abc" "best") ∧
    ("--no-playlist" ∈ download_format_info_cmd "https://example.com/v/abc" ∧
      "--no-warnings" ∈ download_format_info_cmd "https://example.com/v/abc" ∧
      "--no-check-certificate" ∉ download_format_info_cmd "https://example.com/v/abc") ∧
    ("--no-playlist" ∈ download_format_stream_cmd "https://example.com/v/abc" "22" ∧
      "--no-warnings" ∈ download_format_stream_cmd "https://example.com/v/abc" "22" ∧
      "--no-check-certificate" ∉ download_format_stream_cmd "https://example.com/v/abc" "22") ∧
    ("--no-playlist" ∈ formats_cmd "https://example.com/v/abc" ∧
      "--no-warnings" ∈ formats_cmd "https://example.com/v/abc" ∧
      "--no-check-certificate" ∉ formats_cmd "https://example.com/v/abc") :=
  c6_flags "https://example.com/v/abc" "best" "22" (by decide) (by decide)

/-- Claim C8 (confirmed): a descriptor appears in the /formats list iff some
source entry with a non-"none" video codec or non-"none" audio codec
describes it; `describeFormat` records exactly the reported fields
(format_id, ext, quality fallback chain, filesize fallback chain, vcodec,
acodec, height, width, fps). -/
theorem c8_formats_filter (l : List Fmt) (d : FormatDescriptor) :
    d ∈ get_formats_list l ↔
      ∃ f, f ∈ l ∧ (f.vcodec ≠ some "none" ∨ f.acodec ≠ some "none") ∧
        d = describeFormat f := by
  induction l with
  | nil => simp [get_formats_list]
  | cons a rest ih =>
    by_cases h : a.vcodec ≠ some "none" ∨ a.acodec ≠ some "none"
    · rw [get_formats_list, if_pos h]
      constructor
      · intro hm
        rcases List.mem_cons.mp hm with rfl | hm2
        · exact ⟨a, List.mem_cons_self a rest, h, rfl⟩
        · rcases ih.mp hm2 with ⟨f, hf, hcond, hd⟩
          exact ⟨f, List.mem_cons_of_mem a hf, hcond, hd⟩
      · rintro ⟨f, hf, hcond, rfl⟩
        rcases List.mem_cons.mp hf with rfl | hf2
        · exact List.mem_cons_self _ _
        · exact List.mem_cons_of_mem _ (ih.mpr ⟨f, hf2, hcond, rfl⟩)
    · rw [get_formats_list, if_neg h]
      constructor
      · intro hm
        rcases ih.mp hm with ⟨f, hf, hcond, hd⟩
        exact ⟨f, List.mem_cons_of_mem a hf, hcond, hd⟩
      · rintro ⟨f, hf, hcond, rfl⟩
        rcases List.mem_cons.mp hf with rfl | hf2
        · exact absurd hcond h
        · exact ih.mpr ⟨f, hf2, hcond, rfl⟩

/-- Witness for C8: a concrete entry with codecs is reported. -/
theorem c8_witness : describeFormat sampleFmt ∈ get_formats_list [sampleFmt] :=
  (c8_formats_filter [sampleFmt] (describeFormat sampleFmt)).mpr
    ⟨sampleFmt, by decide, by decide, rfl⟩

/-- Claim C2 (code bug), evaluated at the failing input of the spec scenario:
the subprocess produces 10 chunks, the client disconnects after receiving 2.
The actions the relay executes are exactly spawn and two reads: it performs
no termination of the child and never observes its exit status (the wait of
line 102 is unreachable once the generator is closed, and the source contains
no kill, terminate or try/finally), while a fully drained stream does reach
the wait. -/
theorem c2_disconnect_leaks :
    closeAfterYields 2 (stream_yt_dlp_gen (List.replicate 10 [0])) =
      [PEvent.spawn, PEvent.readChunk [0], PEvent.readChunk [0]] ∧
    PEvent.termProc ∉ closeAfterYields 2 (stream_yt_dlp_gen (List.replicate 10 [0])) ∧
    PEvent.waitProc ∉ closeAfterYields 2 (stream_yt_dlp_gen (List.replicate 10 [0])) ∧
    PEvent.waitProc ∈ runToEnd (stream_yt_dlp_gen (List.replicate 10 [0])) := by decide

/-- Claim C7 (code bug), evaluated at the failing input of the spec scenario:
the metadata subprocess of /info exits 1 with stderr "ERROR: Unsupported URL".
The handler raises HTTPException(400, ...) at line 160, but `get_video_info`
has no `except HTTPException: raise` clause, so its blanket
`except Exception` converts it into a 500 whose detail is the str() of the
original exception; the client receives 500, not the specified 400. -/
theorem c7_info_meta_failure_500 :
    get_video_info ⟨1, "ERROR: Unsupported URL"⟩ (.error "") =
      .err 500 "400: yt-dlp error: ERROR: Unsupported URL" ∧
    statusOf (get_video_info ⟨1, "ERROR: Unsupported URL"⟩ (.error "")) ≠ 400 := by decide

/-- Counterexample to claim C9: the metadata invocation of /download/format
exits 1 with stderr "ERROR: Unsupported URL" and (as on every failed
extraction) an unparseable stdout.  The endpoint replies 500 with the JSON
decoder message — not 400, and not the extractor diagnostic, which the
source discards unread. -/
theorem c9_counterexample :
    statusOf (download_format "https://example.com/v/abc" "22" ⟨1, "ERROR: Unsupported URL"⟩
      (.error "Expecting value: line 1 column 1 (char 0)")) ≠ 400 ∧
    download_format "https://example.com/v/abc" "22" ⟨1, "ERROR: Unsupported URL"⟩
        (.error "Expecting value: line 1 column 1 (char 0)") =
      .err 500 "Expecting value: line 1 column 1 (char 0)" := by decide

/-- Claim C9 as amended: /download/format never inspects the exit status or
stderr of its metadata invocation; whenever the captured stdout fails to
parse as JSON the reply is a 500 carrying the parse-error text, and whenever
it parses the endpoint streams regardless of the exit status. -/
theorem c9_download_format_errors (url fid : String) (meta : ProcResult) (m : String)
    (info : VideoInfo) :
    download_format url fid meta (.error m) = .err 500 m ∧
    streamCmdOf (download_format url fid meta (.ok info)) =
      some (download_format_stream_cmd url fid) :=
  ⟨rfl, rfl⟩

end VideoDL
